import Mathlib

/-!
Verification of the HydroMate hydroponic dosing calculator (`src/main.py`).

Shallow embedding conventions: numbers that Python represents as floats are
modelled as rationals; nullable SQL columns are modelled as `Option` values;
the SQLite database together with its failure modes is modelled by `DbState`;
each interactive input loop is modelled by the step function its body applies
to one already-read line of input.
-/

namespace HydroMate

/-- A raw row of the `hydroponic_formulas` table (`id`, `name`); `name` is a
nullable text column. -/
structure FormulaRow where
  id : Int
  name : Option String
deriving DecidableEq

/-- A raw row of the `chemicals` table (`id`, `name`, `chem`, `ABC`); all of
its text columns are nullable. -/
structure ChemRow where
  id : Int
  name : Option String
  chem : Option String
  ABC : Option String
deriving DecidableEq

/-- A raw row of the `formula_chemicals` association table; `concentration`
is a nullable numeric column. -/
structure LinkRow where
  formula_id : Int
  chemical_id : Int
  concentration : Option ℚ
deriving DecidableEq

/-- The logical contents of the `database.sqlite` store. -/
structure Store where
  formulas : List FormulaRow
  links : List LinkRow
  chemicals : List ChemRow
deriving DecidableEq

/-- Observable state of the data source: `get_db_connection` returning `None`
(`unavailable`), a query raising `sqlite3.Error` (`queryError`), or a readable
store (`ok`). -/
inductive DbState where
  | unavailable
  | queryError
  | ok (store : Store)
deriving DecidableEq

/-- A formula dict as built by `get_all_formulas` (src/main.py:27):
`{"id": row["id"], "name": row["name"] or ""}`. -/
structure Formula where
  id : Int
  name : String
deriving DecidableEq

/-- A chemical dict as built by `get_formula_chemicals` (src/main.py:51-57). -/
structure Chemical where
  chemical_id : Int
  name : String
  chemical_formula : String
  category : String
  concentration : ℚ
deriving DecidableEq

/-- Embedding of `get_all_formulas` (src/main.py:17-33): lists the formula rows with
`name` defaulted to the empty string; when the connection cannot be made or
the query raises `sqlite3.Error`, the failure is swallowed (a diagnostic is
printed) and the empty list is returned instead of an exception. -/
def get_all_formulas : DbState → List Formula
  | .unavailable => []
  | .queryError => []
  | .ok s => s.formulas.map fun r => { id := r.id, name := r.name.getD "" }

/-- One row produced by the SQL join in `get_formula_chemicals`
(src/main.py:37-43): the chemical columns plus the association's
`concentration`. -/
structure JoinedRow where
  chem : ChemRow
  concentration : Option ℚ
deriving DecidableEq

/-- The SQLite `ORDER BY c.ABC` comparison on a nullable text column:
`NULL` sorts before every value; values compare as strings. -/
def sqlAbcLe : Option String → Option String → Prop
  | none, _ => True
  | some _, none => False
  | some x, some y => x ≤ y

instance : DecidableRel sqlAbcLe := fun a b =>
  match a, b with
  | none, _ => isTrue trivial
  | some _, none => isFalse fun h => h
  | some x, some y => inferInstanceAs (Decidable (x ≤ y))

/-- The `ORDER BY c.ABC` order lifted to joined rows. -/
def rowLe (a b : JoinedRow) : Prop := sqlAbcLe a.chem.ABC b.chem.ABC

instance : DecidableRel rowLe := fun a b =>
  inferInstanceAs (Decidable (sqlAbcLe a.chem.ABC b.chem.ABC))

instance : IsTotal JoinedRow rowLe :=
  ⟨fun a b => by
    unfold rowLe
    match a.chem.ABC, b.chem.ABC with
    | none, _ => exact Or.inl trivial
    | some x, none => exact Or.inr trivial
    | some x, some y => exact le_total x y⟩

instance : IsTrans JoinedRow rowLe :=
  ⟨fun a b c hab hbc => by
    unfold rowLe at hab hbc ⊢
    match ha : a.chem.ABC, hb : b.chem.ABC, hc : c.chem.ABC with
    | none, _, _ => exact trivial
    | some x, none, _ => rw [ha, hb] at hab; exact hab.elim
    | some x, some y, none => rw [hb, hc] at hbc; exact hbc.elim
    | some x, some y, some z =>
      rw [ha, hb] at hab
      rw [hb, hc] at hbc
      exact le_trans hab hbc⟩

/-- The `FROM formula_chemicals fc JOIN chemicals c ON fc.chemical_id = c.id
WHERE fc.formula_id = ?` part of the query in `get_formula_chemicals`. -/
def sqlJoin (s : Store) (fid : Int) : List JoinedRow :=
  (s.links.filter fun l => l.formula_id == fid).filterMap fun l =>
    (s.chemicals.find? fun c => c.id == l.chemical_id).map fun c =>
      { chem := c, concentration := l.concentration }

/-- The full query of `get_formula_chemicals` including `ORDER BY c.ABC`. -/
def sqlChemQuery (s : Store) (fid : Int) : List JoinedRow :=
  List.insertionSort rowLe (sqlJoin s fid)

/-- The dict built per result row in `get_formula_chemicals`
(src/main.py:51-57): text fields default to `""`; a `NULL` concentration
defaults to `0.0`. -/
def mkChemical (j : JoinedRow) : Chemical :=
  { chemical_id := j.chem.id
    name := j.chem.name.getD ""
    chemical_formula := j.chem.chem.getD ""
    category := j.chem.ABC.getD ""
    concentration := j.concentration.getD 0 }

/-- Embedding of `get_formula_chemicals` (src/main.py:35-63): runs the ordered query and
builds the chemical dicts; when the connection cannot be made or the query
raises `sqlite3.Error`, the failure is swallowed (a diagnostic is printed)
and the empty list is returned instead of an exception. -/
def get_formula_chemicals : DbState → Int → List Chemical
  | .unavailable, _ => []
  | .queryError, _ => []
  | .ok s, fid => (sqlChemQuery s fid).map mkChemical

/-- The query `get_formula_chemicals` as an explicit state transformer over the data
source: the query is a read-only SELECT, so the store is passed through
unchanged. -/
def get_formula_chemicalsS (db : DbState) (fid : Int) : DbState × List Chemical :=
  (db, get_formula_chemicals db fid)

/-- The characters removed by Python `str.strip()` with no argument. -/
def isPySpace (c : Char) : Bool :=
  c == ' ' || c == '\t' || c == '\n' || c == '\r' || c == '\x0b' || c == '\x0c'

/-- Python `str.strip()` as applied to each `input(...)` line. -/
def pyStrip (s : String) : String :=
  ⟨((s.data.dropWhile isPySpace).reverse.dropWhile isPySpace).reverse⟩

/-- Python `str.lower()` (ASCII case mapping, which covers the quit token). -/
def pyLower (s : String) : String :=
  ⟨s.data.map Char.toLower⟩

/-- Outcome of one iteration of the `get_valid_formula_id` loop:
re-prompt, quit (`return None`), or `return int(user_input)`. -/
inductive SelectOutcome where
  | retry
  | quit
  | selected (id : Int)
deriving DecidableEq

/-- One iteration of `get_valid_formula_id` (src/main.py:76-87) applied to
one line of input: strip it, return the quit sentinel on a case-insensitive
`q`, accept exactly the strings `str(formula["id"])` (after which
`int(user_input)` recovers that id), and otherwise re-prompt. -/
def get_valid_formula_id_step (formulas : List Formula) (raw : String) : SelectOutcome :=
  if pyLower (pyStrip raw) = "q" then .quit
  else
    match formulas.find? fun f => toString f.id == pyStrip raw with
    | some f => .selected f.id
    | none => .retry

/-- One iteration of `get_valid_float` (src/main.py:89-100) applied to one
already-parsed line of input: `none` as argument stands for a `ValueError`
raised by `float(...)`; `none` as result means the loop re-prompts. -/
def get_valid_float_step (min_value : ℚ) : Option ℚ → Option ℚ
  | none => none
  | some value => if value < min_value then none else some value

/-- One body row of the PrettyTable built in `process_formula`
(src/main.py:128-140). -/
structure ReportRow where
  category : String
  name : String
  formula_display : String
  concentration : ℚ
  mass : ℚ
  is_stock_solution : Bool
deriving DecidableEq

/-- The result of `process_formula`: one of its two error strings
(src/main.py:106 and 110) or the report with its header data and
table rows. -/
inductive ProcessResult where
  | formulaNotFound (formula_id : Int)
  | noChemicals (formula_id : Int)
  | report (formula_id : Int) (formula_name : String)
      (volume_l dilution_factor : ℚ) (rows : List ReportRow)
deriving DecidableEq

/-- The loop body of src/main.py:128-140: mass in grams, stock-solution
flag, and display fields for one chemical. -/
def compute_row (volume_l dilution_factor : ℚ) (c : Chemical) : ReportRow :=
  { category := c.category
    name := c.name
    formula_display := if c.chemical_formula = "" then "-" else c.chemical_formula
    concentration := c.concentration
    mass := c.concentration * volume_l * dilution_factor / 1000
    is_stock_solution := decide (dilution_factor > 1) }

/-- Embedding of `process_formula` (src/main.py:102-143) with the data source threaded
explicitly: look up the selected formula, fetch its chemicals, and either
return an error value or build one report row per chemical. -/
def process_formulaS (formula_id : Int) (volume_l dilution_factor : ℚ)
    (formulas : List Formula) (db : DbState) : DbState × ProcessResult :=
  match formulas.find? fun f => f.id == formula_id with
  | none => (db, .formulaNotFound formula_id)
  | some f =>
    match get_formula_chemicalsS db formula_id with
    | (db2, chemicals) =>
      if chemicals = [] then (db2, .noChemicals formula_id)
      else (db2, .report f.id f.name volume_l dilution_factor
        (chemicals.map (compute_row volume_l dilution_factor)))

/-- The value `process_formula` returns to its caller. -/
def process_formula (formula_id : Int) (volume_l dilution_factor : ℚ)
    (formulas : List Formula) (db : DbState) : ProcessResult :=
  (process_formulaS formula_id volume_l dilution_factor formulas db).2

/-- A concrete store with one formula and one associated chemical at
150 mg/L, used to instantiate theorems with hypotheses. -/
def demoStore : Store :=
  { formulas := [{ id := 1, name := some "Lettuce" }]
    links := [{ formula_id := 1, chemical_id := 7, concentration := some 150 }]
    chemicals := [{ id := 7, name := some "KNO3", chem := some "KNO3", ABC := some "A" }] }

/-- The formula list `get_all_formulas` produces from `demoStore`. -/
def demoFormulas : List Formula := get_all_formulas (.ok demoStore)

/-- Variant of `demoStore` without its association row: formula 1 exists but has no
chemicals. -/
def emptyLinkStore : Store :=
  { formulas := demoStore.formulas
    links := []
    chemicals := demoStore.chemicals }

/-- A store whose association row carries a negative concentration. -/
def negStore : Store :=
  { formulas := demoStore.formulas
    links := [{ formula_id := 1, chemical_id := 7, concentration := some (-1) }]
    chemicals := [{ id := 7, name := some "KNO3", chem := none, ABC := some "A" }] }

set_option maxRecDepth 4000

theorem empty_string_le (s : String) : "" ≤ s := by
  rw [String.le_iff_toList_le]
  exact List.nil_le

theorem sqlAbcLe_getD : ∀ {a b : Option String}, sqlAbcLe a b → a.getD "" ≤ b.getD ""
  | none, none, _ => le_refl _
  | none, some y, _ => empty_string_le y
  | some _, none, h => h.elim
  | some _, some _, h => h

theorem sqlJoin_mem_link {s : Store} {fid : Int} {j : JoinedRow}
    (hj : j ∈ sqlJoin s fid) : ∃ l ∈ s.links, j.concentration = l.concentration := by
  unfold sqlJoin at hj
  rcases List.mem_filterMap.mp hj with ⟨l, hl, hmap⟩
  rcases Option.map_eq_some'.mp hmap with ⟨c, hfind, hje⟩
  exact ⟨l, (List.mem_filter.mp hl).1, by rw [← hje]⟩

theorem process_report_inv {fid : Int} {v d : ℚ} {formulas : List Formula}
    {db : DbState} {i : Int} {n : String} {v2 d2 : ℚ} {rows : List ReportRow}
    (h : process_formula fid v d formulas db = .report i n v2 d2 rows) :
    v2 = v ∧ d2 = d ∧ rows = (get_formula_chemicals db fid).map (compute_row v d) := by
  unfold process_formula process_formulaS get_formula_chemicalsS at h
  cases hfind : formulas.find? fun f => f.id == fid with
  | none => rw [hfind] at h; exact absurd h (by simp)
  | some f =>
    rw [hfind] at h
    dsimp only at h
    by_cases hc : get_formula_chemicals db fid = []
    · rw [if_pos hc] at h
      exact absurd h (by simp)
    · rw [if_neg hc] at h
      simp only [ProcessResult.report.injEq] at h
      exact ⟨h.2.2.1.symm, h.2.2.2.1.symm, h.2.2.2.2.symm⟩

/-- Claim C1: every row of a report produced by `process_formula` has
`mass = concentration * volume * dilution / 1000`, and under non-negative
concentration and positive volume and dilution factor this mass is
non-negative. -/
theorem claim_mass_formula (fid : Int) (v d : ℚ) (formulas : List Formula)
    (db : DbState) (i : Int) (n : String) (v2 d2 : ℚ) (rows : List ReportRow)
    (row : ReportRow)
    (hrep : process_formula fid v d formulas db = .report i n v2 d2 rows)
    (hrow : row ∈ rows) (hc : 0 ≤ row.concentration) (hv : 0 < v) (hd : 0 < d) :
    row.mass = row.concentration * v * d / 1000 ∧ 0 ≤ row.mass := by
  obtain ⟨-, -, hrows⟩ := process_report_inv hrep
  subst hrows
  rcases List.mem_map.mp hrow with ⟨c, hcm, rfl⟩
  refine ⟨rfl, ?_⟩
  have hc0 : (0:ℚ) ≤ c.concentration := hc
  show 0 ≤ c.concentration * v * d / 1000
  exact div_nonneg (mul_nonneg (mul_nonneg hc0 hv.le) hd.le) (by norm_num)

/-- Witness for claim C1 at a concrete report row. -/
theorem claim_mass_formula_witness :
    (ReportRow.mk "A" "KNO3" "KNO3" 150 (3/20) false).mass
        = (ReportRow.mk "A" "KNO3" "KNO3" 150 (3/20) false).concentration * 1 * 1 / 1000
      ∧ 0 ≤ (ReportRow.mk "A" "KNO3" "KNO3" 150 (3/20) false).mass :=
  claim_mass_formula 1 1 1 demoFormulas (.ok demoStore) 1 "Lettuce" 1 1
    [ReportRow.mk "A" "KNO3" "KNO3" 150 (3/20) false]
    (ReportRow.mk "A" "KNO3" "KNO3" 150 (3/20) false)
    (by with_unfolding_all decide) (by with_unfolding_all decide)
    (by norm_num) (by norm_num) (by norm_num)

/-- Claim C2: in every report produced by `process_formula`, a row's
stock-solution flag is set exactly when `dilution_factor > 1`, and all rows
of the report carry the same flag. -/
theorem claim_stock_flag (fid : Int) (v d : ℚ) (formulas : List Formula)
    (db : DbState) (i : Int) (n : String) (v2 d2 : ℚ) (rows : List ReportRow)
    (row : ReportRow)
    (hrep : process_formula fid v d formulas db = .report i n v2 d2 rows)
    (hrow : row ∈ rows) :
    (row.is_stock_solution = true ↔ 1 < d)
    ∧ ∀ row2 ∈ rows, row2.is_stock_solution = row.is_stock_solution := by
  obtain ⟨-, -, hrows⟩ := process_report_inv hrep
  subst hrows
  rcases List.mem_map.mp hrow with ⟨c, hcm, rfl⟩
  constructor
  · show decide (d > 1) = true ↔ 1 < d
    simp
  · intro row2 hrow2
    rcases List.mem_map.mp hrow2 with ⟨c2, hcm2, rfl⟩
    rfl

/-- Witness for claim C2 at a concrete report with dilution factor 10. -/
theorem claim_stock_flag_witness :
    ((ReportRow.mk "A" "KNO3" "KNO3" 150 3 true).is_stock_solution = true ↔ (1:ℚ) < 10) :=
  (claim_stock_flag 1 2 10 demoFormulas (.ok demoStore) 1 "Lettuce" 2 10
    [ReportRow.mk "A" "KNO3" "KNO3" 150 3 true]
    (ReportRow.mk "A" "KNO3" "KNO3" 150 3 true)
    (by with_unfolding_all decide) (by with_unfolding_all decide)).1

/-- Counterexample to claim C3 as stated: with the configured floor 0.0001,
a parsed value exactly at the floor is accepted by `get_valid_float`
(src/main.py:95 tests `value < min_value`, not `<=`), while the claim says
any value at or below the floor is rejected. -/
theorem claim_float_floor_cex :
    get_valid_float_step (1/10000) (some (1/10000)) = some (1/10000)
    ∧ get_valid_float_step (1/10000) (some (1/10000)) ≠ none := by
  constructor
  · norm_num [get_valid_float_step]
  · norm_num [get_valid_float_step]
    exact Option.some_ne_none _

/-- Claim C3 (amended): with the configured floor 0.0001, the numeric prompt
rejects any parseable value strictly below the floor, accepts any value at
or above the floor, and re-prompts on unparseable input. -/
theorem claim_float_threshold (v : ℚ) :
    (get_valid_float_step (1/10000) (some v) = some v ↔ 1/10000 ≤ v)
    ∧ (get_valid_float_step (1/10000) (some v) = none ↔ v < 1/10000)
    ∧ get_valid_float_step (1/10000) none = none := by
  simp only [get_valid_float_step]
  by_cases h : v < 1/10000
  · rw [if_pos h]
    exact ⟨⟨fun he => Option.noConfusion he, fun hle => absurd h (not_lt.mpr hle)⟩,
      ⟨fun _ => h, fun _ => rfl⟩, by trivial⟩
  · rw [if_neg h]
    exact ⟨⟨fun _ => not_lt.mp h, fun _ => rfl⟩,
      ⟨fun he => Option.noConfusion he, fun hlt => absurd hlt h⟩, by trivial⟩

/-- Witness for claim C3 (amended): the value 1 is above the floor and is
accepted. -/
theorem claim_float_threshold_witness :
    get_valid_float_step (1/10000) (some 1) = some 1 :=
  (claim_float_threshold 1).1.mpr (by norm_num)

/-- Claim C4: when the data source is unreachable or a query fails, both
repository queries return the empty list to their caller (their result type
is total, so no exception crosses the repository boundary). -/
theorem claim_db_failure_empty :
    get_all_formulas .unavailable = [] ∧ get_all_formulas .queryError = []
    ∧ ∀ fid : Int, get_formula_chemicals .unavailable fid = []
        ∧ get_formula_chemicals .queryError fid = [] :=
  ⟨rfl, rfl, fun _ => ⟨rfl, rfl⟩⟩

/-- Claim C5: for every data-source state and formula id, the chemicals
returned by `get_formula_chemicals` are sorted ascending by their
`category` key. -/
theorem claim_chemicals_sorted (db : DbState) (fid : Int) :
    List.Sorted (fun a b : Chemical => a.category ≤ b.category)
      (get_formula_chemicals db fid) := by
  cases db with
  | unavailable => exact List.sorted_nil
  | queryError => exact List.sorted_nil
  | ok s =>
    have hs : List.Sorted rowLe (sqlChemQuery s fid) :=
      List.sorted_insertionSort rowLe (sqlJoin s fid)
    exact List.Pairwise.map mkChemical (fun a b hab => sqlAbcLe_getD hab) hs

/-- Counterexample to claim C6 as stated: a store holding a negative
association concentration yields a chemical with a negative concentration
field; `get_formula_chemicals` only defaults `NULL` to `0.0` and never
clamps negative stored values. -/
theorem claim_concentration_cex :
    ∃ c ∈ get_formula_chemicals (.ok negStore) 1, c.concentration < 0 := by
  with_unfolding_all decide

/-- Claim C6 (amended): when every stored association concentration is
non-negative, every chemical returned by `get_formula_chemicals` has a
non-negative concentration; and an absent (`NULL`) stored concentration
always becomes `0.0` rather than a missing value. -/
theorem claim_concentration_nonneg (s : Store) (fid : Int)
    (hs : ∀ l ∈ s.links, 0 ≤ l.concentration.getD 0) :
    (∀ c ∈ get_formula_chemicals (.ok s) fid, 0 ≤ c.concentration)
    ∧ ∀ j : JoinedRow, j.concentration = none → (mkChemical j).concentration = 0 := by
  constructor
  · intro c hc
    have hc2 : c ∈ (sqlChemQuery s fid).map mkChemical := hc
    rcases List.mem_map.mp hc2 with ⟨j, hj, rfl⟩
    have hj2 : j ∈ sqlJoin s fid :=
      (List.perm_insertionSort rowLe (sqlJoin s fid)).mem_iff.mp hj
    rcases sqlJoin_mem_link hj2 with ⟨l, hl, hlc⟩
    show 0 ≤ j.concentration.getD 0
    rw [hlc]
    exact hs l hl
  · intro j hj
    show j.concentration.getD 0 = 0
    rw [hj]
    rfl

/-- Witness for claim C6 (amended) on a store with concentration 150. -/
theorem claim_concentration_nonneg_witness :
    0 ≤ (Chemical.mk 7 "KNO3" "KNO3" "A" 150).concentration :=
  (claim_concentration_nonneg demoStore 1 (by with_unfolding_all decide)).1
    (Chemical.mk 7 "KNO3" "KNO3" "A" 150) (by with_unfolding_all decide)

/-- Claim C7: one iteration of the formula-selection prompt quits exactly on
the case-insensitive quit token, accepts some id exactly when the stripped
input is the string form of a known id (so empty, non-numeric and unknown
inputs re-prompt), and any accepted id is the one whose string form was
typed. -/
theorem claim_formula_selection (formulas : List Formula) (raw : String) :
    (get_valid_formula_id_step formulas raw = .quit ↔ pyLower (pyStrip raw) = "q")
    ∧ ((∃ i : Int, get_valid_formula_id_step formulas raw = .selected i) ↔
        pyLower (pyStrip raw) ≠ "q"
          ∧ pyStrip raw ∈ formulas.map fun f => toString f.id)
    ∧ ∀ i : Int, get_valid_formula_id_step formulas raw = .selected i →
        pyStrip raw = toString i ∧ i ∈ formulas.map Formula.id := by
  unfold get_valid_formula_id_step
  by_cases hq : pyLower (pyStrip raw) = "q"
  · rw [if_pos hq]
    refine ⟨by simp [hq], ⟨?_, ?_⟩, ?_⟩
    · rintro ⟨i, hi⟩; exact absurd hi (by simp)
    · rintro ⟨hne, -⟩; exact absurd hq hne
    · intro i hi; exact absurd hi (by simp)
  · rw [if_neg hq]
    cases hfind : formulas.find? fun f => toString f.id == pyStrip raw with
    | none =>
      refine ⟨by simp [hq], ⟨?_, ?_⟩, ?_⟩
      · rintro ⟨i, hi⟩; exact absurd hi (by simp)
      · rintro ⟨-, hmem⟩
        rcases List.mem_map.mp hmem with ⟨f, hfm, hfe⟩
        exact absurd (by simp [hfe] : (fun f => toString f.id == pyStrip raw) f = true)
          (List.find?_eq_none.mp hfind f hfm)
      · intro i hi; exact absurd hi (by simp)
    | some f =>
      have hpf := List.find?_some hfind
      have heq : toString f.id = pyStrip raw := by simpa using hpf
      have hmemf : f ∈ formulas := List.mem_of_find?_eq_some hfind
      refine ⟨by simp [hq], ⟨?_, ?_⟩, ?_⟩
      · intro _; exact ⟨hq, List.mem_map.mpr ⟨f, hmemf, heq⟩⟩
      · intro _; exact ⟨f.id, rfl⟩
      · intro i hi
        injection hi with h
        subst h
        exact ⟨heq.symm, List.mem_map.mpr ⟨f, hmemf, rfl⟩⟩

/-- Witness for claim C7: an upper-case quit token with surrounding spaces
quits. -/
theorem claim_formula_selection_witness :
    get_valid_formula_id_step demoFormulas " Q " = .quit :=
  (claim_formula_selection demoFormulas " Q ").1.mpr (by decide)

/-- Claim C8: when the selected formula id is present in the catalog but
`get_formula_chemicals` returns no chemicals, `process_formula` returns the
explicit no-chemicals error value: no mass is computed and no report is
built. -/
theorem claim_no_chemicals (fid : Int) (v d : ℚ) (formulas : List Formula)
    (db : DbState) (hf : ∃ f ∈ formulas, f.id = fid)
    (hc : get_formula_chemicals db fid = []) :
    process_formula fid v d formulas db = .noChemicals fid := by
  unfold process_formula process_formulaS get_formula_chemicalsS
  have hsome : (formulas.find? fun f => f.id == fid).isSome := by
    rw [List.find?_isSome]
    rcases hf with ⟨f, hfm, hfe⟩
    exact ⟨f, hfm, by simp [hfe]⟩
  cases hfind : formulas.find? fun f => f.id == fid with
  | none => rw [hfind] at hsome; simp at hsome
  | some f =>
    dsimp only
    rw [if_pos hc]

/-- Witness for claim C8 on a store whose formula 1 has no associated
chemicals. -/
theorem claim_no_chemicals_witness :
    process_formula 1 1 1 (get_all_formulas (.ok emptyLinkStore)) (.ok emptyLinkStore)
      = .noChemicals 1 :=
  claim_no_chemicals 1 1 1 (get_all_formulas (.ok emptyLinkStore)) (.ok emptyLinkStore)
    (by decide) (by decide)

/-- Claim C9: `process_formula` mutates no state: threading the data source
through it returns the source unchanged, and a second invocation with
identical inputs yields an identical result. -/
theorem claim_idempotent (fid : Int) (v d : ℚ) (formulas : List Formula)
    (db : DbState) :
    (process_formulaS fid v d formulas db).1 = db
    ∧ (process_formulaS fid v d formulas (process_formulaS fid v d formulas db).1).2
        = (process_formulaS fid v d formulas db).2 := by
  have h1 : ∀ db0 : DbState, (process_formulaS fid v d formulas db0).1 = db0 := by
    intro db0
    unfold process_formulaS get_formula_chemicalsS
    cases formulas.find? fun f => f.id == fid with
    | none => rfl
    | some f =>
      dsimp only
      by_cases hc : get_formula_chemicals db0 fid = []
      · rw [if_pos hc]
      · rw [if_neg hc]
  exact ⟨h1 db, by rw [h1 db]⟩

/-- Claim C10: every report built by `process_formula` has exactly one row
per fetched chemical, in the same order: the row list has the same length
as the chemicals list and its k-th row is computed from the k-th chemical. -/
theorem claim_rows_one_per_chemical (fid : Int) (v d : ℚ) (formulas : List Formula)
    (db : DbState) (i : Int) (n : String) (v2 d2 : ℚ) (rows : List ReportRow)
    (hrep : process_formula fid v d formulas db = .report i n v2 d2 rows) :
    rows.length = (get_formula_chemicals db fid).length
    ∧ ∀ k : Nat, rows[k]? = ((get_formula_chemicals db fid)[k]?).map (compute_row v d) := by
  obtain ⟨-, -, hrows⟩ := process_report_inv hrep
  subst hrows
  exact ⟨List.length_map _ _, fun k => List.getElem?_map _ _ k⟩

/-- Witness for claim C10 at a concrete one-chemical report. -/
theorem claim_rows_one_per_chemical_witness :
    ([ReportRow.mk "A" "KNO3" "KNO3" 150 (3/20) false] : List ReportRow).length
      = (get_formula_chemicals (.ok demoStore) 1).length :=
  (claim_rows_one_per_chemical 1 1 1 demoFormulas (.ok demoStore) 1 "Lettuce" 1 1
    [ReportRow.mk "A" "KNO3" "KNO3" 150 (3/20) false]
    (by with_unfolding_all decide)).1

end HydroMate
